import Mathlib

/-!
Verification of the carbon-monitoring pipeline of
carbon-monitoring-system-using-remote-sensing.

The development shallowly embeds the TypeScript route handlers in Lean:

* numbers are exact rationals (`ℚ`); the JavaScript idioms
  `parseFloat(x.toFixed(2))` and `Math.round(x * 100) / 100` are both
  modelled by `round2` (round half up at the second decimal);
* a JavaScript division whose denominator is `0` produces a non-finite
  value (`Infinity` or `NaN`); such results are modelled by `none` in
  `Option ℚ` (`jsDiv`);
* the JavaScript defaulting idiom `v || d` (which replaces both a missing
  field and a zero value by the default) is modelled by `jsOr`;
* external collaborators (Earth Engine collections, the model server) are
  modelled as environment records supplying observation counts, band
  statistics, and server outcomes; each embedded function is a pure
  function of its environment;
* thrown `Error(msg)` values are modelled as `Except.error msg`, with the
  exact message strings the source code builds by template interpolation.

Sources embedded: `src/app/api/carbon-monitoring/route.ts` (the date-based
route), the year-based route reproduced in `PROJECT_STRUCTURE.md`
(functions `getSatelliteFeatures`, `getSOCSatelliteFeatures`,
`getBiomassData`, `getSOCData`, `getCarbonDataForYear`, `POST`), and
`src/app/api/carbon/route.ts` (`calculateCarbonChange`,
`calculateCredits`).
-/

/-- Rounding to two decimals, as performed by `parseFloat(x.toFixed(2))`
and `Math.round(x * 100) / 100` in the source (round half up, exact on
our rationals). -/
def round2 (q : ℚ) : ℚ := (round (100 * q) : ℤ) / 100

/-- A rational that is exactly representable with two decimal digits. -/
def Is2dp (q : ℚ) : Prop := ∃ k : ℤ, q = (k : ℚ) / 100

/-- JavaScript division: a zero denominator yields a non-finite value
(`Infinity` or `NaN`), modelled as `none`. -/
def jsDiv (a b : ℚ) : Option ℚ := if b = 0 then none else some (a / b)

/-- JavaScript defaulting `v || d`: a missing field (`none`) and a falsy
value (`0`) are both replaced by the default `d`. -/
def jsOr (v : Option ℚ) (d : ℚ) : ℚ :=
  match v with
  | none => d
  | some x => if x = 0 then d else x

/-! ## The temporal availability resolver (`findClosestData`)

From `src/app/api/carbon-monitoring/route.ts`, lines 55–86.  The Earth
Engine environment is abstracted as `count : Nat → Nat`, giving the
Dynamic World observation count over the area of interest for the window
`[target − w months, target + w months]`; the returned `collection`
determines this count (the caller recovers it via `checkCollectionSize`),
so the embedding returns the pair `(monthsUsed, count)` with
`monthsUsed = 2 * w`. -/

/-- Error message built at line 85 of the route. -/
def noDataMsg (maxMonthsSearch : Nat) (targetDate : String) : String :=
  "No satellite data found within " ++ toString (maxMonthsSearch * 2) ++
    " months of " ++ targetDate

/-- Loop of `findClosestData`: try half-widths `w, w+1, ...` while fuel
remains (the source iterates `monthsWindow` from 1 to `maxMonthsSearch`). -/
def findClosestDataGo (count : Nat → Nat) (w : Nat) : Nat → Option (Nat × Nat)
  | 0 => none
  | fuel + 1 =>
    if 0 < count w then some (2 * w, count w)
    else findClosestDataGo count (w + 1) fuel

/-- `findClosestData(geometry, targetDate, maxMonthsSearch = 6)`. -/
def findClosestData (count : Nat → Nat) (targetDate : String)
    (maxMonthsSearch : Nat := 6) : Except String (Nat × Nat) :=
  match findClosestDataGo count 1 maxMonthsSearch with
  | some r => Except.ok r
  | none => Except.error (noDataMsg maxMonthsSearch targetDate)


/-! ## The carbon-credits route (`src/app/api/carbon/route.ts`)

`calculateCarbonChange` (lines 133–156) and `calculateCredits`
(lines 158–200).  The land-cover inputs are abstracted as the lists of
per-class `carbonStock` values (the only data these functions read). -/

namespace CarbonRoute

/-- Result record of `calculateCarbonChange`.  `annualChange` is an
`Option ℚ` because the source divides by `yearsDifference` without a
guard: a zero difference produces a non-finite JavaScript number,
modelled as `none`. -/
structure CarbonChangeAnalysis where
  historicalTotalCarbon : ℚ
  currentTotalCarbon : ℚ
  carbonChange : ℚ
  annualChange : Option ℚ
  percentChange : ℚ
deriving Repr

/-- `calculateCarbonChange(historical, current, historicalYear, currentYear)`:
sums the per-class carbon stocks of the two epochs, takes the difference,
divides by the (unguarded) year difference for the annual rate and by the
(guarded) historical total for the percentage, rounding everything with
`Math.round(x * 100) / 100`. -/
def calculateCarbonChange (historical current : List ℚ)
    (historicalYear currentYear : ℤ) : CarbonChangeAnalysis :=
  let historicalTotalCarbon := historical.foldl (· + ·) 0
  let currentTotalCarbon := current.foldl (· + ·) 0
  let carbonChange := currentTotalCarbon - historicalTotalCarbon
  let yearsDifference : ℚ := (currentYear : ℚ) - (historicalYear : ℚ)
  let annualChange := jsDiv carbonChange yearsDifference
  let percentChange :=
    if historicalTotalCarbon > 0 then carbonChange / historicalTotalCarbon * 100 else 0
  { historicalTotalCarbon := round2 historicalTotalCarbon
    currentTotalCarbon := round2 currentTotalCarbon
    carbonChange := round2 carbonChange
    annualChange := Option.map round2 annualChange
    percentChange := round2 percentChange }

/-- Result record of `calculateCredits`. -/
structure CreditsResult where
  eligibility : String
  reason : String
  potentialCredits : ℚ
  estimatedMin : ℚ
  estimatedMax : ℚ
  annualSequestration : ℚ
deriving Repr

/-- `calculateCredits(carbonAnalysis)`: reads `carbonChange` and
`annualChange` from the analysis (here taken as the two finite numeric
inputs), prices credits at 15–30 USD per ton, and clamps the annual
sequestration at zero. -/
def calculateCredits (carbonChange annualChange : ℚ) : CreditsResult :=
  let potentialCredits := if carbonChange > 0 then carbonChange else 0
  { eligibility := if carbonChange > 0 then "Potentially Eligible" else "Not Eligible"
    reason :=
      if carbonChange > 0 then
        "Positive carbon sequestration detected. Further verification required."
      else if carbonChange < 0 then
        "Net carbon loss detected. No credits available."
      else
        "No significant carbon change detected."
    potentialCredits := round2 potentialCredits
    estimatedMin := round2 (potentialCredits * 15)
    estimatedMax := round2 (potentialCredits * 30)
    annualSequestration := round2 (max 0 annualChange) }

end CarbonRoute

/-! ## The date-based monitoring route (`src/app/api/carbon-monitoring/route.ts`)

The Earth Engine environment of one epoch is a `DateEpochEnv`:
observation counts per half-width for `findClosestData`, the grouped
area sums (m²) of the land classification, and the two evaluated raster
means (`null`/missing modelled as `none`; the source applies `value || 0`
to both). -/

namespace DateRoute

structure DateEpochEnv where
  /-- Dynamic World observation count for the window of half-width `w`. -/
  count : Nat → Nat
  /-- `group.sum` values (m²) from `calculateAreaStatistics`. -/
  groups : List ℚ
  /-- Evaluated mean of the WCMC `carbon_tonnes_per_ha` band. -/
  wcmcCarbon : Option ℚ
  /-- Evaluated mean of the OpenLandMap SOC band (g/kg). -/
  socGperKg : Option ℚ

structure DataQuality where
  imageCount : Nat
  temporalWindow : String
deriving Repr

/-- The per-epoch snapshot (`CarbonDataPoint` of the route). -/
structure DateCarbonPoint where
  date : String
  totalAreaHa : ℚ
  agb : ℚ
  bgb : ℚ
  soc : ℚ
  totalCarbonStock : ℚ
  quality : DataQuality
deriving Repr

/-- `getBiomassData` (lines 145–198): mean WCMC carbon (defaulted by
`value || 0`), split 80 % AGB / 20 % BGB, both rounded to 2 decimals. -/
def getBiomassData (wcmcCarbon : Option ℚ) : ℚ × ℚ :=
  let totalCarbon := jsOr wcmcCarbon 0
  (round2 (totalCarbon * (4/5)), round2 (totalCarbon * (1/5)))

/-- `getSOCData` (lines 204–249): SOC stock = SOC(g/kg) × bulk density
1.3 × depth 0.3 × 0.1, rounded to 2 decimals. -/
def getSOCData (socGperKg : Option ℚ) : ℚ :=
  round2 ((jsOr socGperKg 0) * (13/10) * (3/10) * (1/10))

/-- `getCarbonDataForDate` (lines 254–307): land classification via
`findClosestData` (each class area rounded to 2 decimals, the total is
their sum), biomass and SOC pools, and the snapshot.  Any thrown error
is re-wrapped with the target date (line 305). -/
def getCarbonDataForDate (env : DateEpochEnv) (targetDate : String) :
    Except String DateCarbonPoint :=
  match findClosestData env.count targetDate 6 with
  | Except.error msg =>
      Except.error ("Failed to fetch carbon data for " ++ targetDate ++ ": " ++ msg)
  | Except.ok r =>
      let areaHaList := env.groups.map (fun s => round2 (s / 10000))
      let totalAreaHa := areaHaList.foldl (· + ·) 0
      let biomass := getBiomassData env.wcmcCarbon
      let soc := getSOCData env.socGperKg
      let carbonPerHa := biomass.1 + biomass.2 + soc
      Except.ok
        { date := targetDate
          totalAreaHa := round2 totalAreaHa
          agb := biomass.1
          bgb := biomass.2
          soc := soc
          totalCarbonStock := round2 (carbonPerHa * totalAreaHa)
          quality := { imageCount := r.2, temporalWindow := toString r.1 ++ " months" } }

/-- The carbon-stock-change block of the POST handler (lines 330–359). -/
structure CarbonStockChange where
  totalChange : ℚ
  percentChange : ℚ
  annualChange : ℚ
  status : String
  co2Equivalent : ℚ
deriving Repr

/-- Change metrics of the date-based POST handler: both divisions are
guarded (`> 0 ? ... : 0`), the status is the sign of the change, and the
CO₂ equivalent applies the fixed factor 3.67. `yearsDifference` is
`daysDifference / 365.25`. -/
def changeOfStocks (startStock endStock : ℚ) (daysDifference : ℤ) : CarbonStockChange :=
  let yearsDifference : ℚ := (daysDifference : ℚ) / (36525/100)
  let carbonStockChange := endStock - startStock
  let carbonStockChangePercent :=
    if startStock > 0 then carbonStockChange / startStock * 100 else 0
  let annualCarbonChange :=
    if yearsDifference > 0 then carbonStockChange / yearsDifference else 0
  { totalChange := round2 carbonStockChange
    percentChange := round2 carbonStockChangePercent
    annualChange := round2 annualCarbonChange
    status :=
      if carbonStockChange > 0 then "Increase"
      else if carbonStockChange < 0 then "Decrease"
      else "No Change"
    co2Equivalent := round2 (carbonStockChange * (367/100)) }

/-- Response data of the date-based POST handler. -/
structure DateReport where
  startData : DateCarbonPoint
  endData : DateCarbonPoint
  carbonStockChange : CarbonStockChange
  durationDays : ℤ
  durationYears : ℚ
deriving Repr

/-- POST handler (lines 309–396): both epochs are fetched with
`Promise.all`; a rejection of either epoch rejects the whole request and
the handler returns a single error response (the model surfaces the
first epoch's error when both fail).  `daysDifference` abstracts
`Math.floor((end − start) / 86400000)`. -/
def POSTDateRoute (env1 env2 : DateEpochEnv) (startDate endDate : String)
    (daysDifference : ℤ) : Except String DateReport :=
  match getCarbonDataForDate env1 startDate with
  | Except.error msg => Except.error msg
  | Except.ok startData =>
    match getCarbonDataForDate env2 endDate with
    | Except.error msg => Except.error msg
    | Except.ok endData =>
      Except.ok
        { startData := startData
          endData := endData
          carbonStockChange :=
            changeOfStocks startData.totalCarbonStock endData.totalCarbonStock daysDifference
          durationDays := daysDifference
          durationYears := round2 ((daysDifference : ℚ) / (36525/100)) }

end DateRoute

/-! ## The year-based monitoring route (reproduced in `PROJECT_STRUCTURE.md`)

This is the ML-model variant: satellite features are aggregated from
Sentinel-2, Sentinel-1, terrain, climate and soil layers, sent to a local
model server, and the resulting pools are combined with a single polygon
area computed once per request. -/

namespace YearRoute

/-- Outcome of one `fetch` call to the model server.
`connRefused` models a rejection whose `error.code` is `ECONNREFUSED`
(service unreachable); `httpError` models `response.ok === false`;
`fail` models a 200 reply with `success: false` and an optional `error`
string; `ok` models a successful prediction payload. -/
inductive ServerOutcome (α : Type) where
  | connRefused
  | httpError (body : String)
  | fail (err : Option String)
  | ok (value : α)

/-- JavaScript string defaulting `s || d` (both a missing string and the
empty string are falsy). -/
def jsOrStr (v : Option String) (d : String) : String :=
  match v with
  | none => d
  | some s => if s = "" then d else s

/-- The message thrown when `error.code === 'ECONNREFUSED'`. -/
def connRefusedMsg : String :=
  "Model server is not running. Please start it with: python python/model_server.py"

/-- Catch-all wrapper of `getBiomassData` (the year-route version). -/
def biomassWrap (msg : String) : String := "Failed to fetch biomass data: " ++ msg

/-- Catch-all wrapper of `getSOCData` (the year-route version). -/
def socWrap (msg : String) : String := "Failed to fetch SOC data: " ++ msg

/-- Catch-all wrapper of `getCarbonDataForYear`. -/
def yearWrap (year : Nat) (msg : String) : String :=
  "Failed to fetch carbon data for year " ++ toString year ++ ": " ++ msg

/-- `String(n).padStart(2, '0')`. -/
def pad2 (n : Nat) : String := if n < 10 then "0" ++ toString n else toString n

/-- The full-year range strings used by `getBiomassData`. -/
def yearStart (y : Nat) : String := toString y ++ "-01-01"

def yearEnd (y : Nat) : String := toString y ++ "-12-31"

/-- Effective date computation of `getSatelliteFeatures` (the requested
year is `parseInt(startDate.split('-')[0])`; `currentYear`/`currentMonth`
come from `new Date()`; months are 1-indexed).  A future year falls back
to the previous year's full range; the current year keeps its start date
but ends at day 28 of `max(1, currentMonth - 1)`. -/
def effectiveDatesAGB (requestedYear currentYear currentMonth : Nat)
    (startDate endDate : String) : String × String :=
  if currentYear < requestedYear then
    (yearStart (currentYear - 1), yearEnd (currentYear - 1))
  else if requestedYear = currentYear then
    (startDate,
      toString currentYear ++ "-" ++ pad2 (max 1 (currentMonth - 1)) ++ "-28")
  else (startDate, endDate)

/-- Data year of `getSOCSatelliteFeatures`: `year >= currentYear ?
currentYear - 1 : year`. -/
def socDataYear (year currentYear : Nat) : Nat :=
  if currentYear ≤ year then currentYear - 1 else year

/-- Environment of one `getSatelliteFeatures` run: Sentinel collection
sizes, the evaluated `reduceRegion` band means (a missing band is
`none`), and the polygon centroid. -/
structure SatStats where
  s2Size : Nat
  s1Size : Nat
  bandMean : String → Option ℚ
  centroidLat : ℚ
  centroidLon : ℚ

/-- The 14-feature biomass record (plus centroid position). -/
structure BiomassFeatures where
  latitude : ℚ
  longitude : ℚ
  B2 : ℚ
  B3 : ℚ
  B4 : ℚ
  B5 : ℚ
  B6 : ℚ
  B7 : ℚ
  B8 : ℚ
  B11 : ℚ
  B12 : ℚ
  NDVI : ℚ
  VV : ℚ
  VH : ℚ
  elevation : ℚ
  slope : ℚ
deriving Repr

/-- The record literal returned by `getSatelliteFeatures`: each band mean
is defaulted with `result.X || 0`. -/
def buildSatelliteFeatures (bandMean : String → Option ℚ) (lat lon : ℚ) :
    BiomassFeatures :=
  { latitude := lat
    longitude := lon
    B2 := jsOr (bandMean "B2") 0
    B3 := jsOr (bandMean "B3") 0
    B4 := jsOr (bandMean "B4") 0
    B5 := jsOr (bandMean "B5") 0
    B6 := jsOr (bandMean "B6") 0
    B7 := jsOr (bandMean "B7") 0
    B8 := jsOr (bandMean "B8") 0
    B11 := jsOr (bandMean "B11") 0
    B12 := jsOr (bandMean "B12") 0
    NDVI := jsOr (bandMean "NDVI") 0
    VV := jsOr (bandMean "VV") 0
    VH := jsOr (bandMean "VH") 0
    elevation := jsOr (bandMean "elevation") 0
    slope := jsOr (bandMean "slope") 0 }

/-- Sentinel-2 zero-count error of `getSatelliteFeatures`. -/
def s2PeriodMsg (eff : String × String) : String :=
  "No Sentinel-2 data available for the period " ++ eff.1 ++ " to " ++ eff.2 ++
    ". Try selecting an earlier year."

/-- Sentinel-1 zero-count error of `getSatelliteFeatures`. -/
def s1PeriodMsg (eff : String × String) : String :=
  "No Sentinel-1 data available for the period " ++ eff.1 ++ " to " ++ eff.2 ++
    ". Try selecting an earlier year."

/-- `getSatelliteFeatures(geometry, startDate, endDate)`: computes the
effective window, fails fast when the Sentinel-2 or Sentinel-1 collection
is empty, and otherwise returns the per-band means with missing scalars
defaulted to 0.  Terrain/NDVI layers need no count check in the source. -/
def getSatelliteFeatures (env : SatStats)
    (requestedYear currentYear currentMonth : Nat)
    (startDate endDate : String) : Except String BiomassFeatures :=
  let eff := effectiveDatesAGB requestedYear currentYear currentMonth startDate endDate
  if env.s2Size = 0 then Except.error (s2PeriodMsg eff)
  else if env.s1Size = 0 then Except.error (s1PeriodMsg eff)
  else Except.ok (buildSatelliteFeatures env.bandMean env.centroidLat env.centroidLon)

/-- Environment of one `getSOCSatelliteFeatures` run.  `chirpsSize` is
the CHIRPS (precipitation) observation count: the source sums the
filtered daily collection without ever checking its size (an empty
collection just yields a missing `precip_annual` mean), so no field of
the result depends on it. -/
structure SOCStats where
  s2Size : Nat
  s1Size : Nat
  chirpsSize : Nat
  bandMean : String → Option ℚ
  centroidLat : ℚ
  centroidLon : ℚ

/-- The 16-feature SOC record (plus `bulk_density`, fetched for the SOC
stock computation). -/
structure SOCFeatures where
  B2 : ℚ
  B3 : ℚ
  B4 : ℚ
  B8 : ℚ
  B11 : ℚ
  NDVI : ℚ
  VV : ℚ
  VH : ℚ
  elevation : ℚ
  slope : ℚ
  aspect : ℚ
  precip_annual : ℚ
  temp_mean : ℚ
  soil_texture : ℚ
  latitude : ℚ
  longitude : ℚ
  bulk_density : ℚ
deriving Repr

/-- The record literal returned by `getSOCSatelliteFeatures`: every band
mean is defaulted with `result.X || 0` except `bulk_density`, which is
defaulted with `result.bulk_density || 1.3`. -/
def buildSOCFeatures (bandMean : String → Option ℚ) (lat lon : ℚ) : SOCFeatures :=
  { B2 := jsOr (bandMean "B2") 0
    B3 := jsOr (bandMean "B3") 0
    B4 := jsOr (bandMean "B4") 0
    B8 := jsOr (bandMean "B8") 0
    B11 := jsOr (bandMean "B11") 0
    NDVI := jsOr (bandMean "NDVI") 0
    VV := jsOr (bandMean "VV") 0
    VH := jsOr (bandMean "VH") 0
    elevation := jsOr (bandMean "elevation") 0
    slope := jsOr (bandMean "slope") 0
    aspect := jsOr (bandMean "aspect") 0
    precip_annual := jsOr (bandMean "precip_annual") 0
    temp_mean := jsOr (bandMean "temp_mean") 0
    soil_texture := jsOr (bandMean "soil_texture") 0
    latitude := lat
    longitude := lon
    bulk_density := jsOr (bandMean "bulk_density") (13/10) }

/-- Sentinel-2 zero-count error of `getSOCSatelliteFeatures`. -/
def s2YearMsg (dataYear : Nat) : String :=
  "No Sentinel-2 data available for year " ++ toString dataYear ++
    ". Try selecting a different year."

/-- Sentinel-1 zero-count error of `getSOCSatelliteFeatures`. -/
def s1YearMsg (dataYear : Nat) : String :=
  "No Sentinel-1 data available for year " ++ toString dataYear ++
    ". Try selecting a different year."

/-- `getSOCSatelliteFeatures(geometry, year)`. -/
def getSOCSatelliteFeatures (env : SOCStats) (year currentYear : Nat) :
    Except String SOCFeatures :=
  let dataYear := socDataYear year currentYear
  if env.s2Size = 0 then Except.error (s2YearMsg dataYear)
  else if env.s1Size = 0 then Except.error (s1YearMsg dataYear)
  else Except.ok (buildSOCFeatures env.bandMean env.centroidLat env.centroidLon)

/-- Environment of one epoch of the year route. -/
structure EpochEnv where
  agbSat : SatStats
  socSat : SOCStats
  agbServer : ServerOutcome (ℚ × ℚ)
  socServer : ServerOutcome ℚ

/-- `getBiomassData(geometry, year)` of the year route: fetch the feature
record for the full-year range, POST it to `/predict/agb`, and classify
failures.  The catch block rethrows `connRefusedMsg` unwrapped when
`error.code === 'ECONNREFUSED'` and otherwise wraps the message. -/
def getBiomassData (env : EpochEnv) (year currentYear currentMonth : Nat) :
    Except String (ℚ × ℚ) :=
  match getSatelliteFeatures env.agbSat year currentYear currentMonth
      (yearStart year) (yearEnd year) with
  | Except.error msg => Except.error (biomassWrap msg)
  | Except.ok _features =>
    match env.agbServer with
    | ServerOutcome.connRefused => Except.error connRefusedMsg
    | ServerOutcome.httpError body =>
        Except.error (biomassWrap ("Model server error: " ++ body))
    | ServerOutcome.fail err =>
        Except.error (biomassWrap (jsOrStr err "Model prediction failed"))
    | ServerOutcome.ok v => Except.ok (round2 v.1, round2 v.2)

/-- `getSOCData(geometry, year)` of the year route: same shape against
`/predict/soc`. -/
def getSOCData (env : EpochEnv) (year currentYear : Nat) : Except String ℚ :=
  match getSOCSatelliteFeatures env.socSat year currentYear with
  | Except.error msg => Except.error (socWrap msg)
  | Except.ok _features =>
    match env.socServer with
    | ServerOutcome.connRefused => Except.error connRefusedMsg
    | ServerOutcome.httpError body =>
        Except.error (socWrap ("Model server error: " ++ body))
    | ServerOutcome.fail err =>
        Except.error (socWrap (jsOrStr err "Model prediction failed"))
    | ServerOutcome.ok v => Except.ok (round2 v)

structure CarbonPools where
  agb : ℚ
  bgb : ℚ
  soc : ℚ
deriving Repr

/-- The per-epoch snapshot of the year route. -/
structure CarbonDataPoint where
  year : Nat
  totalAreaHa : ℚ
  carbonPools : CarbonPools
  totalCarbonDensity : ℚ
  totalCarbonStock : ℚ
  co2Equivalent : ℚ
deriving Repr

/-- The snapshot construction of `getCarbonDataForYear` (lines 776–798):
density = agb + bgb + soc, stock = density × area, CO₂ = stock × 3.67,
every reported field passed through `parseFloat(x.toFixed(2))`. -/
def mkCarbonDataPoint (year : Nat) (agb bgb soc totalAreaHa : ℚ) : CarbonDataPoint :=
  let carbonDensity := agb + bgb + soc
  let totalCarbonStock := carbonDensity * totalAreaHa
  let co2Equivalent := totalCarbonStock * (367/100)
  { year := year
    totalAreaHa := round2 totalAreaHa
    carbonPools := { agb := round2 agb, bgb := round2 bgb, soc := round2 soc }
    totalCarbonDensity := round2 carbonDensity
    totalCarbonStock := round2 totalCarbonStock
    co2Equivalent := round2 co2Equivalent }

/-- `getCarbonDataForYear(geometry, year, totalAreaHa)`: biomass first,
then SOC; any error is re-wrapped with the year (line 801). -/
def getCarbonDataForYear (env : EpochEnv) (year currentYear currentMonth : Nat)
    (totalAreaHa : ℚ) : Except String CarbonDataPoint :=
  match getBiomassData env year currentYear currentMonth with
  | Except.error msg => Except.error (yearWrap year msg)
  | Except.ok biomass =>
    match getSOCData env year currentYear with
    | Except.error msg => Except.error (yearWrap year msg)
    | Except.ok soc =>
        Except.ok (mkCarbonDataPoint year biomass.1 biomass.2 soc totalAreaHa)

/-- The carbon-change block of the year-route POST handler. -/
structure YearChange where
  agbChange : ℚ
  bgbChange : ℚ
  socChange : ℚ
  densityChange : ℚ
  totalChange : ℚ
  percentChange : ℚ
  annualChange : ℚ
  co2EquivalentChange : ℚ
  status : String
deriving Repr

/-- Response data of the year-route POST handler. -/
structure YearReport where
  startData : CarbonDataPoint
  endData : CarbonDataPoint
  carbonChange : YearChange
  durationYears : ℤ
  /-- `area.hectares`: the shared polygon area, reported unrounded. -/
  areaHectares : ℚ
deriving Repr

/-- The year-route POST handler (lines 805–902): the polygon area is
computed once (`calculatePolygonArea`, abstracted as the input `areaHa`)
before either epoch pipeline runs, and the same value is passed to both
`getCarbonDataForYear` calls; a rejection of either epoch rejects the
whole request (the model surfaces the first epoch's error when both
fail). -/
def POSTYearRoute (env1 env2 : EpochEnv)
    (startYear endYear currentYear currentMonth : Nat) (areaHa : ℚ) :
    Except String YearReport :=
  let totalAreaHa := areaHa
  match getCarbonDataForYear env1 startYear currentYear currentMonth totalAreaHa with
  | Except.error msg => Except.error msg
  | Except.ok startData =>
    match getCarbonDataForYear env2 endYear currentYear currentMonth totalAreaHa with
    | Except.error msg => Except.error msg
    | Except.ok endData =>
      let yearsDifference : ℤ := (endYear : ℤ) - (startYear : ℤ)
      let carbonStockChange := endData.totalCarbonStock - startData.totalCarbonStock
      let carbonStockChangePercent :=
        if startData.totalCarbonStock > 0 then
          carbonStockChange / startData.totalCarbonStock * 100
        else 0
      let annualCarbonChange :=
        if (yearsDifference : ℚ) > 0 then carbonStockChange / (yearsDifference : ℚ)
        else 0
      Except.ok
        { startData := startData
          endData := endData
          carbonChange :=
            { agbChange := round2 (endData.carbonPools.agb - startData.carbonPools.agb)
              bgbChange := round2 (endData.carbonPools.bgb - startData.carbonPools.bgb)
              socChange := round2 (endData.carbonPools.soc - startData.carbonPools.soc)
              densityChange :=
                round2 (endData.totalCarbonDensity - startData.totalCarbonDensity)
              totalChange := round2 carbonStockChange
              percentChange := round2 carbonStockChangePercent
              annualChange := round2 annualCarbonChange
              co2EquivalentChange := round2 (carbonStockChange * (367/100))
              status :=
                if carbonStockChange > 0 then "Carbon Gain"
                else if carbonStockChange < 0 then "Carbon Loss"
                else "No Change" }
          durationYears := yearsDifference
          areaHectares := totalAreaHa }

end YearRoute

/-! ## Spec-side comparison definitions and concrete inputs

`specEndOfPreviousMonth` follows the specification's words (section 4.2,
policy notes: "cap the effective end-of-window at the end of the previous
calendar month") and exists only to be compared with the source's
`effectiveDatesAGB`; everything after it is a concrete environment used
as input to the theorems below. -/

def isLeapYear (y : Nat) : Bool :=
  (y % 4 = 0 && !(y % 100 = 0)) || y % 400 = 0

def daysInMonth (y m : Nat) : Nat :=
  if m = 2 then (if isLeapYear y then 29 else 28)
  else if m = 4 ∨ m = 6 ∨ m = 9 ∨ m = 11 then 30
  else 31

/-- The last day of the calendar month preceding month `m` of year `y`,
written as an ISO date string; this is the spec's "end of the previous
calendar month". -/
def specEndOfPreviousMonth (y m : Nat) : String :=
  if m = 1 then toString (y - 1) ++ "-12-31"
  else toString y ++ "-" ++ YearRoute.pad2 (m - 1) ++ "-" ++
    toString (daysInMonth y (m - 1))

/-- A satellite-stats environment with one observation in each Sentinel
collection and every band mean missing. -/
def satOk : YearRoute.SatStats :=
  { s2Size := 1, s1Size := 1, bandMean := fun _ => none,
    centroidLat := 0, centroidLon := 0 }

/-- Like `satOk` but with an empty Sentinel-2 collection. -/
def satNoS2 : YearRoute.SatStats :=
  { s2Size := 0, s1Size := 1, bandMean := fun _ => none,
    centroidLat := 0, centroidLon := 0 }

/-- A SOC-stats environment with one observation in each checked
collection and every band mean missing. -/
def socOk : YearRoute.SOCStats :=
  { s2Size := 1, s1Size := 1, chirpsSize := 1, bandMean := fun _ => none,
    centroidLat := 0, centroidLon := 0 }

/-- Like `socOk` but the CHIRPS precipitation collection has zero
observations (and accordingly no `precip_annual` mean is returned). -/
def socNoChirps : YearRoute.SOCStats :=
  { s2Size := 1, s1Size := 1, chirpsSize := 0, bandMean := fun _ => none,
    centroidLat := 0, centroidLon := 0 }

/-- A fully successful year-route epoch: data present, model server
returning AGB = 0.01, BGB = 0, SOC = 0.02 (t/ha). -/
def envOk : YearRoute.EpochEnv :=
  { agbSat := satOk, socSat := socOk,
    agbServer := YearRoute.ServerOutcome.ok (1/100, 0),
    socServer := YearRoute.ServerOutcome.ok (2/100) }

/-- An epoch whose Sentinel-2 collection for the biomass features is
empty; everything else would succeed. -/
def envNoS2 : YearRoute.EpochEnv :=
  { agbSat := satNoS2, socSat := socOk,
    agbServer := YearRoute.ServerOutcome.ok (1/100, 0),
    socServer := YearRoute.ServerOutcome.ok (2/100) }

/-- An epoch whose CHIRPS collection has zero observations; the checked
collections all have data and the model server succeeds. -/
def envChirpsZero : YearRoute.EpochEnv :=
  { agbSat := satOk, socSat := socNoChirps,
    agbServer := YearRoute.ServerOutcome.ok (1/100, 0),
    socServer := YearRoute.ServerOutcome.ok (2/100) }

/-- The snapshot produced by `getCarbonDataForYear` under `envOk` for an
area of 0.55 ha. -/
def snapC2 : YearRoute.CarbonDataPoint :=
  YearRoute.mkCarbonDataPoint 2020 (round2 (1/100)) (round2 0) (round2 (2/100)) (55/100)

/-- A date-route epoch whose land classification covers 1 000 000 m²
(100 ha). -/
def dateEnvA : DateRoute.DateEpochEnv :=
  { count := fun _ => 1, groups := [1000000], wcmcCarbon := some 0, socGperKg := some 0 }

/-- A date-route epoch whose land classification covers 1 200 000 m²
(120 ha); same polygon, different epoch, different classified area. -/
def dateEnvB : DateRoute.DateEpochEnv :=
  { count := fun _ => 1, groups := [1200000], wcmcCarbon := some 0, socGperKg := some 0 }

/-- An epoch whose model server is unreachable (connection refused). -/
def envConnRefused : YearRoute.EpochEnv :=
  { agbSat := satOk, socSat := socOk,
    agbServer := YearRoute.ServerOutcome.connRefused,
    socServer := YearRoute.ServerOutcome.connRefused }

/-! # Theorems

General facts about the rounding and defaulting helpers, then the claims. -/

theorem round2_of_int_div (k : ℤ) : round2 ((k : ℚ) / 100) = (k : ℚ) / 100 := by
  unfold round2
  have h : (100 : ℚ) * ((k : ℚ) / 100) = (k : ℚ) := by field_simp
  rw [h, round_intCast]

theorem round2_is2dp (q : ℚ) : Is2dp (round2 q) := ⟨round (100 * q), rfl⟩

theorem round2_of_is2dp {q : ℚ} (h : Is2dp q) : round2 q = q := by
  obtain ⟨k, rfl⟩ := h
  exact round2_of_int_div k

theorem round2_zero : round2 (0 : ℚ) = 0 := by
  unfold round2
  norm_num

theorem is2dp_add {a b : ℚ} (ha : Is2dp a) (hb : Is2dp b) : Is2dp (a + b) := by
  obtain ⟨j, rfl⟩ := ha
  obtain ⟨k, rfl⟩ := hb
  exact ⟨j + k, by push_cast; ring⟩

theorem is2dp_max {a b : ℚ} (ha : Is2dp a) (hb : Is2dp b) : Is2dp (max a b) := by
  rcases max_cases a b with ⟨h, _⟩ | ⟨h, _⟩ <;> rw [h] <;> assumption

theorem is2dp_intMul {a : ℚ} (n : ℤ) (ha : Is2dp a) : Is2dp ((n : ℚ) * a) := by
  obtain ⟨k, rfl⟩ := ha
  exact ⟨n * k, by push_cast; ring⟩

/-- Helper: a contiguous segment of `m` is also a contiguous segment of
`p ++ (m ++ s)`. -/
theorem substr_extend {α : Type} {n m : List α} (p s : List α)
    (h : n <:+: m) : n <:+: p ++ (m ++ s) :=
  List.IsInfix.trans h ⟨p, s, by rw [List.append_assoc]⟩

/-- Helper: a string cannot equal `p ++ a` when the characters of `p` do
not occur contiguously in it. -/
theorem string_ne_of_missing_seg {p a b : String}
    (hb : b = p ++ a) (hn : ¬ (p.data <:+: b.data)) : False := by
  apply hn
  rw [hb, String.data_append]
  exact ⟨[], a.data, by simp⟩

/-! ## Claim C1 -/

theorem findClosestDataGo_ok (count : Nat → Nat) :
    ∀ fuel w m c, findClosestDataGo count w fuel = some (m, c) →
      ∃ v, w ≤ v ∧ v < w + fuel ∧ m = 2 * v ∧ c = count v ∧ 0 < count v ∧
        ∀ u, w ≤ u → u < v → count u = 0 := by
  intro fuel
  induction fuel with
  | zero => intro w m c h; simp [findClosestDataGo] at h
  | succ n ih =>
    intro w m c h
    unfold findClosestDataGo at h
    by_cases hw : 0 < count w
    · rw [if_pos hw] at h
      refine ⟨w, le_refl w, by omega, ?_, ?_, hw, ?_⟩
      · exact (Prod.mk.injEq _ _ _ _ ▸ Option.some.inj h).1.symm
      · exact (Prod.mk.injEq _ _ _ _ ▸ Option.some.inj h).2.symm
      · intro u hu1 hu2; omega
    · rw [if_neg hw] at h
      obtain ⟨v, hv1, hv2, hv3, hv4, hv5, hv6⟩ := ih (w + 1) m c h
      refine ⟨v, by omega, by omega, hv3, hv4, hv5, ?_⟩
      intro u hu1 hu2
      rcases Nat.eq_or_lt_of_le hu1 with rfl | hlt
      · omega
      · exact hv6 u hlt hu2

theorem findClosestDataGo_none (count : Nat → Nat) :
    ∀ fuel w, findClosestDataGo count w fuel = none ↔
      ∀ v, w ≤ v → v < w + fuel → count v = 0 := by
  intro fuel
  induction fuel with
  | zero => intro w; simp [findClosestDataGo]; intro v h1 h2; omega
  | succ n ih =>
    intro w
    unfold findClosestDataGo
    by_cases hw : 0 < count w
    · rw [if_pos hw]
      simp only [iff_iff_implies_and_implies]
      constructor
      · intro h; exact absurd h (by simp)
      · intro h
        exact absurd (h w (le_refl w) (by omega)) (by omega)
    · rw [if_neg hw]
      rw [ih (w + 1)]
      constructor
      · intro h v hv1 hv2
        rcases Nat.eq_or_lt_of_le hv1 with rfl | hlt
        · omega
        · exact h v hlt (by omega)
      · intro h v hv1 hv2
        exact h v (by omega) (by omega)

/-- Claim C1 (amended): for every environment, iterating half-widths
`w = 1, ..., 6` in ascending order, `findClosestData` returns the window
of the smallest half-width `w` with a positive observation count,
annotated with that count and `monthsUsed = 2 * w`; it never returns a
wider window when a narrower one has data; and when all six windows are
empty it fails with the exact message naming the target date and the
12-month maximum window searched (the message does not name the data
product). -/
theorem findClosestData_smallest_window (count : Nat → Nat) (targetDate : String) :
    (∀ m c, findClosestData count targetDate 6 = Except.ok (m, c) →
      ∃ v, m = 2 * v ∧ c = count v ∧ 0 < count v ∧ 1 ≤ v ∧ v ≤ 6 ∧
        ∀ u, 1 ≤ u → u < v → count u = 0) ∧
    (findClosestData count targetDate 6 =
        Except.error ("No satellite data found within 12 months of " ++ targetDate) ↔
      ∀ v, 1 ≤ v → v ≤ 6 → count v = 0) := by
  constructor
  · intro m c h
    unfold findClosestData at h
    rcases hgo : findClosestDataGo count 1 6 with _ | r
    · rw [hgo] at h; exact absurd h (by simp)
    · rw [hgo] at h
      obtain ⟨m, c⟩ := r
      obtain ⟨v, hv1, hv2, hv3, hv4, hv5, hv6⟩ :=
        findClosestDataGo_ok count 6 1 m c hgo
      have := Except.ok.inj h
      exact ⟨v, by simp_all, by simp_all, hv5, hv1, by omega, hv6⟩
  · have hmsg : noDataMsg 6 targetDate =
        "No satellite data found within 12 months of " ++ targetDate := rfl
    unfold findClosestData
    rcases hgo : findClosestDataGo count 1 6 with _ | r
    · simp only [hmsg.symm]
      have := (findClosestDataGo_none count 6 1).mp hgo
      constructor
      · intro _ v h1 h2; exact this v h1 (by omega)
      · intro _; trivial
    · constructor
      · intro h; exact absurd h (by simp)
      · intro h
        obtain ⟨m, c⟩ := r
        obtain ⟨v, hv1, hv2, _, _, hv5, _⟩ :=
          findClosestDataGo_ok count 6 1 m c hgo
        exact absurd (h v hv1 (by omega)) (by omega)

/-- Witness for C1: with counts `0, 0, 5, ...` at half-widths `1, 2, 3`,
the resolver settles on half-width 3 (`monthsUsed = 6`, count 5). -/
theorem findClosestData_smallest_window_witness :
    ∃ v, 6 = 2 * v ∧ 5 = (fun w => if w = 3 then 5 else 0) v ∧
      0 < (fun w => if w = 3 then 5 else 0) v ∧ 1 ≤ v ∧ v ≤ 6 ∧
      ∀ u, 1 ≤ u → u < v → (fun w => if w = 3 then 5 else 0) u = 0 :=
  (findClosestData_smallest_window (fun w => if w = 3 then 5 else 0)
    "2020-06-15").1 6 5 rfl

/-- Counterexample for C1 as stated: when every window is empty, the
error message of the source (line 85) names the target date and the
12-month maximum window, but it does not name the data product (the
Dynamic World collection id is nowhere in the message), so the claim
that the error names the product is false. -/
theorem findClosestData_error_no_product_name :
    findClosestData (fun _ => 0) "2020-06-15" 6 =
      Except.error "No satellite data found within 12 months of 2020-06-15" ∧
    ¬ ("Dynamic".data <:+:
        "No satellite data found within 12 months of 2020-06-15".data) ∧
    ¬ ("GOOGLE/DYNAMICWORLD/V1".data <:+:
        "No satellite data found within 12 months of 2020-06-15".data) :=
  ⟨rfl, by decide, by decide⟩

/-! ## Claim C2 -/

/-- Claim C2 (amended): on the values a year-route snapshot reports,
totalDensity equals agb + bgb + soc exactly, while totalStock and
co2Equivalent are the 2-decimal roundings of totalDensity × areaHectares
(with the unrounded area) and of the unrounded stock × 3.67 — the
multiplicative identities hold only up to the 2-decimal rounding applied
by `parseFloat(x.toFixed(2))`, not exactly.  The inputs `round2 a` etc.
are exactly the values `getBiomassData`/`getSOCData` deliver. -/
theorem snapshot_reported_identities (year : Nat) (a b c A : ℚ) :
    (YearRoute.mkCarbonDataPoint year (round2 a) (round2 b) (round2 c) A).carbonPools.agb
        = round2 a ∧
    (YearRoute.mkCarbonDataPoint year (round2 a) (round2 b) (round2 c) A).carbonPools.bgb
        = round2 b ∧
    (YearRoute.mkCarbonDataPoint year (round2 a) (round2 b) (round2 c) A).carbonPools.soc
        = round2 c ∧
    (YearRoute.mkCarbonDataPoint year (round2 a) (round2 b) (round2 c) A).totalCarbonDensity
        = round2 a + round2 b + round2 c ∧
    (YearRoute.mkCarbonDataPoint year (round2 a) (round2 b) (round2 c) A).totalAreaHa
        = round2 A ∧
    (YearRoute.mkCarbonDataPoint year (round2 a) (round2 b) (round2 c) A).totalCarbonStock
        = round2 ((round2 a + round2 b + round2 c) * A) ∧
    (YearRoute.mkCarbonDataPoint year (round2 a) (round2 b) (round2 c) A).co2Equivalent
        = round2 (((round2 a + round2 b + round2 c) * A) * (367/100)) := by
  have hsum : Is2dp (round2 a + round2 b + round2 c) :=
    is2dp_add (is2dp_add (round2_is2dp a) (round2_is2dp b)) (round2_is2dp c)
  refine ⟨?_, ?_, ?_, ?_, ?_, ?_, ?_⟩ <;>
    simp only [YearRoute.mkCarbonDataPoint]
  · exact round2_of_is2dp (round2_is2dp a)
  · exact round2_of_is2dp (round2_is2dp b)
  · exact round2_of_is2dp (round2_is2dp c)
  · exact round2_of_is2dp hsum

/-- Counterexample for C2 as stated: under `envOk` (model pools
0.01 + 0 + 0.02 t/ha) and an area of 0.55 ha, the reported stock is
round2(0.0165) = 0.02, which differs from reported density × reported
area = 0.0165, and the reported CO₂ equivalent 0.06 differs from
reported stock × 3.67 = 0.0734.  The exact multiplicative identities of
the claim are false on the reported values. -/
theorem snapshot_rounding_breaks_identities :
    YearRoute.getCarbonDataForYear envOk 2020 2025 10 (55/100) = Except.ok snapC2 ∧
    snapC2.totalCarbonStock ≠ snapC2.totalCarbonDensity * snapC2.totalAreaHa ∧
    snapC2.co2Equivalent ≠ snapC2.totalCarbonStock * (367/100) := by
  refine ⟨rfl, ?_, ?_⟩ <;>
    simp only [snapC2, YearRoute.mkCarbonDataPoint] <;>
    norm_num [round2, round_eq]

/-! ## Claim C3 -/

/-- Claim C3 (amended): in both two-epoch monitoring POST handlers both
divisions are guarded (percentChange is 0 unless the start stock is
positive, annualChange is 0 unless the duration is positive) and the
status is the exact sign trichotomy of the stock change — with labels
Increase / Decrease / No Change in the date-based handler and labels
Carbon Gain / Carbon Loss / No Change in the year-based handler.  In
`calculateCarbonChange` of the credits route the percentage guard also
holds, but the annual-change division is NOT guarded: an equal pair of
years produces a non-finite value (`none`), not 0. -/
theorem change_metrics_guarded (s e : ℚ) (d : ℤ) (hist curr : List ℚ) (hy cy : ℤ)
    (env1 env2 : YearRoute.EpochEnv) (ys ye yc ym : Nat) (A : ℚ) (c2 : ℚ) :
    ((DateRoute.changeOfStocks s e d).percentChange =
      if s > 0 then round2 ((e - s) / s * 100) else 0) ∧
    ((DateRoute.changeOfStocks s e d).annualChange =
      if ((d : ℚ) / (36525/100)) > 0 then round2 ((e - s) / ((d : ℚ) / (36525/100)))
      else 0) ∧
    ((DateRoute.changeOfStocks s e d).status = "Increase" ↔ 0 < e - s) ∧
    ((DateRoute.changeOfStocks s e d).status = "Decrease" ↔ e - s < 0) ∧
    ((DateRoute.changeOfStocks s e d).status = "No Change" ↔ e - s = 0) ∧
    ((CarbonRoute.calculateCarbonChange hist curr hy cy).percentChange =
      if hist.foldl (· + ·) 0 > 0 then
        round2 ((curr.foldl (· + ·) 0 - hist.foldl (· + ·) 0) /
          hist.foldl (· + ·) 0 * 100)
      else 0) ∧
    (cy = hy → (CarbonRoute.calculateCarbonChange hist curr hy cy).annualChange = none) ∧
    ((YearRoute.POSTYearRoute env1 env2 ys ye yc ym A).map
        (fun r => (r.carbonChange.percentChange, r.carbonChange.annualChange,
          r.carbonChange.status)) =
      (YearRoute.POSTYearRoute env1 env2 ys ye yc ym A).map
        (fun r =>
          (if r.startData.totalCarbonStock > 0 then
             round2 ((r.endData.totalCarbonStock - r.startData.totalCarbonStock) /
               r.startData.totalCarbonStock * 100)
           else 0,
           if (((ye : ℤ) - (ys : ℤ) : ℤ) : ℚ) > 0 then
             round2 ((r.endData.totalCarbonStock - r.startData.totalCarbonStock) /
               (((ye : ℤ) - (ys : ℤ) : ℤ) : ℚ))
           else 0,
           if r.endData.totalCarbonStock - r.startData.totalCarbonStock > 0 then
             "Carbon Gain"
           else if r.endData.totalCarbonStock - r.startData.totalCarbonStock < 0 then
             "Carbon Loss"
           else "No Change"))) ∧
    ((if c2 > 0 then "Carbon Gain"
      else if c2 < 0 then "Carbon Loss" else "No Change") = "Carbon Gain" ↔ 0 < c2) ∧
    ((if c2 > 0 then "Carbon Gain"
      else if c2 < 0 then "Carbon Loss" else "No Change") = "Carbon Loss" ↔ c2 < 0) ∧
    ((if c2 > 0 then "Carbon Gain"
      else if c2 < 0 then "Carbon Loss" else "No Change") = "No Change" ↔ c2 = 0) := by
  refine ⟨?_, ?_, ?_, ?_, ?_, ?_, ?_, ?_, ?_, ?_, ?_⟩
  · simp only [DateRoute.changeOfStocks]
    split_ifs with h
    · rfl
    · exact round2_zero
  · simp only [DateRoute.changeOfStocks]
    split_ifs with h
    · rfl
    · exact round2_zero
  · simp only [DateRoute.changeOfStocks]
    split_ifs with h1 h2 <;> constructor <;> intro hx
    · linarith
    · rfl
    · exact absurd hx (by decide)
    · linarith
    · exact absurd hx (by decide)
    · linarith
  · simp only [DateRoute.changeOfStocks]
    split_ifs with h1 h2 <;> constructor <;> intro hx
    · exact absurd hx (by decide)
    · linarith
    · linarith
    · rfl
    · exact absurd hx (by decide)
    · linarith
  · simp only [DateRoute.changeOfStocks]
    split_ifs with h1 h2 <;> constructor <;> intro hx
    · exact absurd hx (by decide)
    · linarith
    · exact absurd hx (by decide)
    · linarith
    · linarith
    · rfl
  · simp only [CarbonRoute.calculateCarbonChange]
    split_ifs with h
    · rfl
    · exact round2_zero
  · intro h
    subst h
    simp [CarbonRoute.calculateCarbonChange, jsDiv, sub_self]
  · unfold YearRoute.POSTYearRoute
    rcases h1 : YearRoute.getCarbonDataForYear env1 ys yc ym A with m | sd
    · simp only [h1, Except.map]
    · rcases h2 : YearRoute.getCarbonDataForYear env2 ye yc ym A with m | ed
      · simp only [h1, h2, Except.map]
      · simp only [h1, h2, Except.map]
        refine congrArg Except.ok ?_
        refine Prod.ext ?_ (Prod.ext ?_ ?_) <;> dsimp only
        · split_ifs with hp
          · rfl
          · exact round2_zero
        · split_ifs with hq
          · rfl
          · exact round2_zero
  · split_ifs with h1 h2 <;> constructor <;> intro hx
    · linarith
    · rfl
    · exact absurd hx (by decide)
    · linarith
    · exact absurd hx (by decide)
    · linarith
  · split_ifs with h1 h2 <;> constructor <;> intro hx
    · exact absurd hx (by decide)
    · linarith
    · linarith
    · rfl
    · exact absurd hx (by decide)
    · linarith
  · split_ifs with h1 h2 <;> constructor <;> intro hx
    · exact absurd hx (by decide)
    · linarith
    · exact absurd hx (by decide)
    · linarith
    · linarith
    · rfl

/-- Witness for C3: the guarded and unguarded branches at concrete
inputs. -/
theorem change_metrics_guarded_witness :
    (CarbonRoute.calculateCarbonChange [50] [75] 2010 2010).annualChange = none :=
  (change_metrics_guarded 0 0 0 [50] [75] 2010 2010 envOk envOk 2020 2021 2025 10
    0 0).2.2.2.2.2.2.1 rfl

/-- Counterexample for C3 as stated: `calculateCarbonChange` divides the
carbon change by `currentYear - historicalYear` without any guard; with
equal years the JavaScript result is non-finite (`Infinity`), modelled
`none` — not the claimed 0, so the "both divisions are guarded, a zero
denominator yields 0" part of the claim is false for this function. -/
theorem calculateCarbonChange_unguarded_annual :
    (CarbonRoute.calculateCarbonChange [100] [200] 2020 2020).annualChange = none ∧
    (none : Option ℚ) ≠ some 0 := by
  constructor
  · simp [CarbonRoute.calculateCarbonChange, jsDiv, sub_self]
  · simp

/-! ## Claim C4 -/

/-- Helper: an infix of `l` is an infix of `l ++ x`. -/
theorem seg_left {α : Type} {n l : List α} (x : List α) (h : n <:+: l) :
    n <:+: l ++ x :=
  h.trans ⟨[], x, by simp⟩

/-- Helper: an infix of `l` is an infix of `p ++ l`. -/
theorem seg_right {α : Type} {n l : List α} (p : List α) (h : n <:+: l) :
    n <:+: p ++ l :=
  h.trans ⟨p, [], by simp⟩

/-- Claim C4 (amended): when a count-checked data product (Sentinel-2 or
Sentinel-1) reports zero observations for one epoch's effective window,
feature extraction for that epoch fails with an error naming that
product, and the whole two-epoch request returns that single error (an
`Except.error` carries no snapshot) even when the other epoch and every
other product would have succeeded.  Products without a count check
(e.g. CHIRPS precipitation) do not trigger this behaviour — see the
counterexample. -/
theorem zero_count_fails_whole_request (env1 env2 : YearRoute.EpochEnv)
    (sy ey cy cm : Nat) (A : ℚ) :
    (env1.agbSat.s2Size = 0 →
      YearRoute.POSTYearRoute env1 env2 sy ey cy cm A =
        Except.error (YearRoute.yearWrap sy (YearRoute.biomassWrap
          (YearRoute.s2PeriodMsg (YearRoute.effectiveDatesAGB sy cy cm
            (YearRoute.yearStart sy) (YearRoute.yearEnd sy))))) ∧
      "Sentinel-2".data <:+: (YearRoute.yearWrap sy (YearRoute.biomassWrap
          (YearRoute.s2PeriodMsg (YearRoute.effectiveDatesAGB sy cy cm
            (YearRoute.yearStart sy) (YearRoute.yearEnd sy))))).data) ∧
    (env1.agbSat.s2Size ≠ 0 → env1.agbSat.s1Size = 0 →
      YearRoute.POSTYearRoute env1 env2 sy ey cy cm A =
        Except.error (YearRoute.yearWrap sy (YearRoute.biomassWrap
          (YearRoute.s1PeriodMsg (YearRoute.effectiveDatesAGB sy cy cm
            (YearRoute.yearStart sy) (YearRoute.yearEnd sy))))) ∧
      "Sentinel-1".data <:+: (YearRoute.yearWrap sy (YearRoute.biomassWrap
          (YearRoute.s1PeriodMsg (YearRoute.effectiveDatesAGB sy cy cm
            (YearRoute.yearStart sy) (YearRoute.yearEnd sy))))).data) ∧
    (Except.isOk (YearRoute.getCarbonDataForYear env1 sy cy cm A) = true →
     Except.isOk (YearRoute.getBiomassData env2 ey cy cm) = true →
     env2.socSat.s2Size ≠ 0 → env2.socSat.s1Size = 0 →
      YearRoute.POSTYearRoute env1 env2 sy ey cy cm A =
        Except.error (YearRoute.yearWrap ey (YearRoute.socWrap
          (YearRoute.s1YearMsg (YearRoute.socDataYear ey cy)))) ∧
      "Sentinel-1".data <:+: (YearRoute.yearWrap ey (YearRoute.socWrap
          (YearRoute.s1YearMsg (YearRoute.socDataYear ey cy)))).data) := by
  refine ⟨?_, ?_, ?_⟩
  · intro h
    constructor
    · simp [YearRoute.POSTYearRoute, YearRoute.getCarbonDataForYear,
        YearRoute.getBiomassData, YearRoute.getSatelliteFeatures, h]
    · have h0 : "Sentinel-2".data <:+:
          "No Sentinel-2 data available for the period ".data := by decide
      simp only [YearRoute.yearWrap, YearRoute.biomassWrap, YearRoute.s2PeriodMsg,
        String.data_append, List.append_assoc]
      exact seg_right _ (seg_right _ (seg_right _ (seg_right _ (seg_left _ h0))))
  · intro h2 h1
    constructor
    · simp [YearRoute.POSTYearRoute, YearRoute.getCarbonDataForYear,
        YearRoute.getBiomassData, YearRoute.getSatelliteFeatures, h2, h1]
    · have h0 : "Sentinel-1".data <:+:
          "No Sentinel-1 data available for the period ".data := by decide
      simp only [YearRoute.yearWrap, YearRoute.biomassWrap, YearRoute.s1PeriodMsg,
        String.data_append, List.append_assoc]
      exact seg_right _ (seg_right _ (seg_right _ (seg_right _ (seg_left _ h0))))
  · intro hok1 hok2 hs2 hs1
    constructor
    · rcases hc1 : YearRoute.getCarbonDataForYear env1 sy cy cm A with m | s1
      · rw [hc1] at hok1
        exact absurd hok1 (by simp [Except.isOk, Except.toBool])
      · rcases hb2 : YearRoute.getBiomassData env2 ey cy cm with m | v
        · rw [hb2] at hok2
          exact absurd hok2 (by simp [Except.isOk, Except.toBool])
        · simp only [YearRoute.POSTYearRoute, hc1]
          simp only [YearRoute.getCarbonDataForYear, hb2]
          simp [YearRoute.getSOCData, YearRoute.getSOCSatelliteFeatures, hs2, hs1]
    · have h0 : "Sentinel-1".data <:+:
          "No Sentinel-1 data available for year ".data := by decide
      simp only [YearRoute.yearWrap, YearRoute.socWrap, YearRoute.s1YearMsg,
        String.data_append, List.append_assoc]
      exact seg_right _ (seg_right _ (seg_right _ (seg_right _ (seg_left _ h0))))

/-- Witness for C4: an empty Sentinel-2 collection in the first epoch
aborts the whole request with the Sentinel-2 error, even though the
second epoch (`envOk`) would have succeeded. -/
theorem zero_count_fails_whole_request_witness :
    YearRoute.POSTYearRoute envNoS2 envOk 2020 2021 2025 10 (55/100) =
      Except.error (YearRoute.yearWrap 2020 (YearRoute.biomassWrap
        (YearRoute.s2PeriodMsg (YearRoute.effectiveDatesAGB 2020 2025 10
          (YearRoute.yearStart 2020) (YearRoute.yearEnd 2020))))) ∧
    "Sentinel-2".data <:+: (YearRoute.yearWrap 2020 (YearRoute.biomassWrap
        (YearRoute.s2PeriodMsg (YearRoute.effectiveDatesAGB 2020 2025 10
          (YearRoute.yearStart 2020) (YearRoute.yearEnd 2020))))).data :=
  (zero_count_fails_whole_request envNoS2 envOk 2020 2021 2025 10 (55/100)).1 rfl

/-- Counterexample for C4 as stated: the CHIRPS precipitation product is
required for the 16-feature SOC vector, yet when it reports zero
observations the request still succeeds — its missing mean is silently
defaulted to 0 — so "any one required data product … fails with an error
naming that product" is false; only the Sentinel collections are
count-checked. -/
theorem unchecked_product_zero_obs_succeeds :
    envChirpsZero.socSat.chirpsSize = 0 ∧
    (YearRoute.getSOCSatelliteFeatures envChirpsZero.socSat 2021 2025).map
      (fun f => f.precip_annual) = Except.ok 0 ∧
    (YearRoute.POSTYearRoute envOk envChirpsZero 2020 2021 2025 10 (55/100)).map
      (fun _ => true) = Except.ok true :=
  ⟨rfl, rfl, rfl⟩

/-! ## Claim C5 -/

/-- Claim C5 (amended): for a requested year strictly after the current
year, both feature-extraction variants substitute `currentYear - 1` (the
AGB variant as the full range Jan 1 to Dec 31); for a requested year
equal to the current year, the AGB variant keeps its start date and caps
the end at day 28 of month `max(1, currentMonth - 1)` — not at the true
end of the previous calendar month — while the SOC variant substitutes
the previous full year. -/
theorem effective_year_policy (ry cy cm : Nat) (s e : String) :
    (cy < ry →
      YearRoute.effectiveDatesAGB ry cy cm s e =
        (YearRoute.yearStart (cy - 1), YearRoute.yearEnd (cy - 1)) ∧
      YearRoute.socDataYear ry cy = cy - 1) ∧
    (ry = cy →
      (YearRoute.effectiveDatesAGB ry cy cm s e).1 = s ∧
      (YearRoute.effectiveDatesAGB ry cy cm s e).2 =
        toString cy ++ "-" ++ YearRoute.pad2 (max 1 (cm - 1)) ++ "-28" ∧
      YearRoute.socDataYear ry cy = cy - 1) := by
  constructor
  · intro h
    constructor
    · simp [YearRoute.effectiveDatesAGB, h]
    · simp [YearRoute.socDataYear, Nat.le_of_lt h]
  · intro h
    subst h
    refine ⟨?_, ?_, ?_⟩
    · simp [YearRoute.effectiveDatesAGB]
    · simp [YearRoute.effectiveDatesAGB]
    · simp [YearRoute.socDataYear]

/-- Witness for C5: requesting 2030 while the clock shows 2025 falls back
to the full year 2024 in both variants. -/
theorem effective_year_policy_witness :
    YearRoute.effectiveDatesAGB 2030 2025 10 "2030-01-01" "2030-12-31" =
      (YearRoute.yearStart 2024, YearRoute.yearEnd 2024) ∧
    YearRoute.socDataYear 2030 2025 = 2024 :=
  (effective_year_policy 2030 2025 10 "2030-01-01" "2030-12-31").1 (by omega)

/-- Counterexample for C5 as stated: with the clock at October 2025, the
requested current year 2025 is capped at "2025-09-28", but the end of
the previous calendar month (September 2025) is "2025-09-30"; the code
caps at day 28, not at the month end, so the "end of the previous
calendar month" clause of the claim is false. -/
theorem current_year_cap_not_month_end :
    (YearRoute.effectiveDatesAGB 2025 2025 10 "2025-01-01" "2025-12-31").2 =
      "2025-09-28" ∧
    specEndOfPreviousMonth 2025 10 = "2025-09-30" ∧
    ("2025-09-28" : String) ≠ "2025-09-30" ∧
    YearRoute.socDataYear 2025 2025 = 2024 :=
  ⟨rfl, rfl, by decide, rfl⟩

/-! ## Claim C6 -/

/-- Helper: a successful `getCarbonDataForYear` reports the rounded
shared area. -/
theorem getCarbonDataForYear_area (env : YearRoute.EpochEnv)
    (y cy cm : Nat) (A : ℚ) (r : YearRoute.CarbonDataPoint)
    (h : YearRoute.getCarbonDataForYear env y cy cm A = Except.ok r) :
    r.totalAreaHa = round2 A := by
  unfold YearRoute.getCarbonDataForYear at h
  rcases hb : YearRoute.getBiomassData env y cy cm with m | v
  · rw [hb] at h
    exact absurd h (by simp)
  · rw [hb] at h
    rcases hs : YearRoute.getSOCData env y cy with m | q
    · rw [hs] at h
      exact absurd h (by simp)
    · rw [hs] at h
      have := Except.ok.inj h
      rw [← this]
      rfl

/-- Claim C6 (amended): in the year-based route the polygon area is
computed once before either epoch pipeline and every successful response
carries the identical (rounded) area in both snapshots and the raw area
at top level; in the date-based route, by contrast, each epoch derives
its own area from its own land classification and the two snapshots can
differ — see the counterexample. -/
theorem year_route_single_area (env1 env2 : YearRoute.EpochEnv)
    (sy ey cy cm : Nat) (A : ℚ) :
    (YearRoute.POSTYearRoute env1 env2 sy ey cy cm A).map
        (fun r => (r.startData.totalAreaHa, r.endData.totalAreaHa, r.areaHectares)) =
      (YearRoute.POSTYearRoute env1 env2 sy ey cy cm A).map
        (fun _ => (round2 A, round2 A, A)) := by
  unfold YearRoute.POSTYearRoute
  rcases h1 : YearRoute.getCarbonDataForYear env1 sy cy cm A with m | s
  · simp only [h1, Except.map]
  · rcases h2 : YearRoute.getCarbonDataForYear env2 ey cy cm A with m | t
    · simp only [h1, h2, Except.map]
    · simp only [h1, h2, Except.map]
      rw [getCarbonDataForYear_area env1 sy cy cm A s h1,
        getCarbonDataForYear_area env2 ey cy cm A t h2]

/-- Counterexample for C6 as stated: a successful two-epoch request of
the date-based route in which the first epoch's classification sums to
100 ha and the second epoch's to 120 ha; the two returned snapshots
carry different `totalAreaHa` values, so "the area value is computed
exactly once … and both returned snapshots carry the identical
areaHectares value" is false for this route. -/
theorem date_route_epoch_areas_differ :
    (DateRoute.POSTDateRoute dateEnvA dateEnvB "2020-01-01" "2021-01-01" 366).map
      (fun r => (r.startData.totalAreaHa, r.endData.totalAreaHa)) =
      Except.ok ((100 : ℚ), 120) ∧
    (100 : ℚ) ≠ 120 := by
  constructor
  · simp only [DateRoute.POSTDateRoute, DateRoute.getCarbonDataForDate,
      findClosestData, findClosestDataGo, dateEnvA, dateEnvB]
    norm_num [Except.map, round2, round_eq]
  · norm_num

/-! ## Claim C7 -/

/-- Claim C7 (amended): the date-route `getBiomassData` derives both
pools from the WCMC total by a hard-coded 80 % / 20 % split, so the
(unrounded) BGB equals AGB × 0.25 — an effective root-to-shoot ratio of
0.25, outside the claimed configured range 0.2–0.24 — and no ratio in
that range satisfies BGB = AGB × r for a positive total. -/
theorem biomass_split_fixed_ratio (wc : Option ℚ) :
    DateRoute.getBiomassData wc =
      (round2 (jsOr wc 0 * (4/5)), round2 (jsOr wc 0 * (1/5))) ∧
    jsOr wc 0 * (4/5) + jsOr wc 0 * (1/5) = jsOr wc 0 ∧
    jsOr wc 0 * (1/5) = (jsOr wc 0 * (4/5)) * (1/4) ∧
    (0 < jsOr wc 0 → ∀ r : ℚ, 1/5 ≤ r → r ≤ 6/25 →
      jsOr wc 0 * (1/5) ≠ (jsOr wc 0 * (4/5)) * r) := by
  refine ⟨rfl, by ring, by ring, ?_⟩
  intro hT r h1 h2 heq
  nlinarith [heq, mul_pos hT (show (0:ℚ) < 4/5 by norm_num)]

/-- Witness for C7: with a WCMC total of 100 t/ha the ratio 0.24 (and by
the theorem every ratio in the claimed range) fails. -/
theorem biomass_split_fixed_ratio_witness :
    0 < jsOr (some 100) 0 ∧
    jsOr (some 100) 0 * (1/5) ≠ (jsOr (some 100) 0 * (4/5)) * (6/25) :=
  ⟨by norm_num [jsOr],
   (biomass_split_fixed_ratio (some 100)).2.2.2 (by norm_num [jsOr]) (6/25)
     (by norm_num) (by norm_num)⟩

/-- Counterexample for C7 as stated: at a WCMC total of 100 t/ha the
route returns agb = 80, bgb = 20; the only ratio with bgb = agb × r is
0.25, and 0.25 is not ≤ 0.24, so no rootToShootRatio in 0.2–0.24
explains the returned pools (and the 0.8 / 0.2 split is a hard-coded
literal, not a configured constant). -/
theorem bgb_ratio_outside_range :
    DateRoute.getBiomassData (some 100) = (80, 20) ∧
    (20 : ℚ) = 80 * (1/4) ∧
    ¬ ((1/4 : ℚ) ≤ 6/25) := by
  refine ⟨?_, by norm_num, by norm_num⟩
  norm_num [DateRoute.getBiomassData, jsOr, round2, round_eq, Prod.ext_iff]

/-! ## Claim C8 -/

/-- Claim C8 (amended): when the checked collections have data, feature
aggregation always succeeds — a missing scalar never fails the record —
and every missing band mean is defaulted to 0, in both the biomass
configuration and the 16-feature soil-carbon configuration, with one
exception: `bulk_density` is defaulted to 1.3, not 0. -/
theorem missing_scalars_default (bm : String → Option ℚ) (lat lon : ℚ)
    (envB : YearRoute.SatStats) (envS : YearRoute.SOCStats)
    (ry cy cm y : Nat) (s e : String)
    (hb2 : envB.s2Size ≠ 0) (hb1 : envB.s1Size ≠ 0)
    (hs2 : envS.s2Size ≠ 0) (hs1 : envS.s1Size ≠ 0) :
    YearRoute.getSatelliteFeatures envB ry cy cm s e =
      Except.ok (YearRoute.buildSatelliteFeatures envB.bandMean
        envB.centroidLat envB.centroidLon) ∧
    YearRoute.getSOCSatelliteFeatures envS y cy =
      Except.ok (YearRoute.buildSOCFeatures envS.bandMean
        envS.centroidLat envS.centroidLon) ∧
    (bm "B2" = none → (YearRoute.buildSatelliteFeatures bm lat lon).B2 = 0) ∧
    (bm "B3" = none → (YearRoute.buildSatelliteFeatures bm lat lon).B3 = 0) ∧
    (bm "B4" = none → (YearRoute.buildSatelliteFeatures bm lat lon).B4 = 0) ∧
    (bm "B5" = none → (YearRoute.buildSatelliteFeatures bm lat lon).B5 = 0) ∧
    (bm "B6" = none → (YearRoute.buildSatelliteFeatures bm lat lon).B6 = 0) ∧
    (bm "B7" = none → (YearRoute.buildSatelliteFeatures bm lat lon).B7 = 0) ∧
    (bm "B8" = none → (YearRoute.buildSatelliteFeatures bm lat lon).B8 = 0) ∧
    (bm "B11" = none → (YearRoute.buildSatelliteFeatures bm lat lon).B11 = 0) ∧
    (bm "B12" = none → (YearRoute.buildSatelliteFeatures bm lat lon).B12 = 0) ∧
    (bm "NDVI" = none → (YearRoute.buildSatelliteFeatures bm lat lon).NDVI = 0) ∧
    (bm "VV" = none → (YearRoute.buildSatelliteFeatures bm lat lon).VV = 0) ∧
    (bm "VH" = none → (YearRoute.buildSatelliteFeatures bm lat lon).VH = 0) ∧
    (bm "elevation" = none → (YearRoute.buildSatelliteFeatures bm lat lon).elevation = 0) ∧
    (bm "slope" = none → (YearRoute.buildSatelliteFeatures bm lat lon).slope = 0) ∧
    (bm "B2" = none → (YearRoute.buildSOCFeatures bm lat lon).B2 = 0) ∧
    (bm "B3" = none → (YearRoute.buildSOCFeatures bm lat lon).B3 = 0) ∧
    (bm "B4" = none → (YearRoute.buildSOCFeatures bm lat lon).B4 = 0) ∧
    (bm "B8" = none → (YearRoute.buildSOCFeatures bm lat lon).B8 = 0) ∧
    (bm "B11" = none → (YearRoute.buildSOCFeatures bm lat lon).B11 = 0) ∧
    (bm "NDVI" = none → (YearRoute.buildSOCFeatures bm lat lon).NDVI = 0) ∧
    (bm "VV" = none → (YearRoute.buildSOCFeatures bm lat lon).VV = 0) ∧
    (bm "VH" = none → (YearRoute.buildSOCFeatures bm lat lon).VH = 0) ∧
    (bm "elevation" = none → (YearRoute.buildSOCFeatures bm lat lon).elevation = 0) ∧
    (bm "slope" = none → (YearRoute.buildSOCFeatures bm lat lon).slope = 0) ∧
    (bm "aspect" = none → (YearRoute.buildSOCFeatures bm lat lon).aspect = 0) ∧
    (bm "precip_annual" = none → (YearRoute.buildSOCFeatures bm lat lon).precip_annual = 0) ∧
    (bm "temp_mean" = none → (YearRoute.buildSOCFeatures bm lat lon).temp_mean = 0) ∧
    (bm "soil_texture" = none → (YearRoute.buildSOCFeatures bm lat lon).soil_texture = 0) ∧
    (bm "bulk_density" = none →
      (YearRoute.buildSOCFeatures bm lat lon).bulk_density = 13/10) := by
  constructor
  · simp [YearRoute.getSatelliteFeatures, hb2, hb1]
  constructor
  · simp [YearRoute.getSOCSatelliteFeatures, hs2, hs1]
  refine ⟨?_, ?_, ?_, ?_, ?_, ?_, ?_, ?_, ?_, ?_, ?_, ?_, ?_, ?_, ?_, ?_, ?_,
    ?_, ?_, ?_, ?_, ?_, ?_, ?_, ?_, ?_, ?_, ?_, ?_⟩ <;>
    (intro h;
     simp [YearRoute.buildSatelliteFeatures, YearRoute.buildSOCFeatures, jsOr, h])

/-- Witness for C8: under environments whose checked collections all
have one observation, both aggregations succeed. -/
theorem missing_scalars_default_witness :
    YearRoute.getSatelliteFeatures satOk 2020 2025 10 "2020-01-01" "2020-12-31" =
      Except.ok (YearRoute.buildSatelliteFeatures satOk.bandMean
        satOk.centroidLat satOk.centroidLon) ∧
    YearRoute.getSOCSatelliteFeatures socOk 2020 2025 =
      Except.ok (YearRoute.buildSOCFeatures socOk.bandMean
        socOk.centroidLat socOk.centroidLon) :=
  ⟨(missing_scalars_default (fun _ => none) 0 0 satOk socOk 2020 2025 10 2020
      "2020-01-01" "2020-12-31" (by decide) (by decide) (by decide) (by decide)).1,
   (missing_scalars_default (fun _ => none) 0 0 satOk socOk 2020 2025 10 2020
      "2020-01-01" "2020-12-31" (by decide) (by decide) (by decide) (by decide)).2.1⟩

/-- Counterexample for C8 as stated: with every band mean missing, the
returned SOC record sets `bulk_density` to 1.3, not to 0, so "every
individual scalar missing from a product's result is set to 0 … for all
named features of … the 16-feature soil-carbon configuration" is false. -/
theorem bulk_density_defaults_nonzero :
    YearRoute.getSOCSatelliteFeatures socOk 2020 2025 =
      Except.ok (YearRoute.buildSOCFeatures (fun _ => none) 0 0) ∧
    (YearRoute.buildSOCFeatures (fun _ => none) 0 0).bulk_density = 13/10 ∧
    ((13 : ℚ)/10) ≠ 0 :=
  ⟨rfl, rfl, by norm_num⟩

/-! ## Claim C9 -/

set_option maxRecDepth 8000 in
/-- Claim C9 (confirmed): a connection-refused transport failure yields
the distinct "Model server is not running" error, a reachable server
answering `success: false` yields a wrapped error carrying the service's
stated reason, the two messages are never equal (for any reason string),
and the embedding makes one server call per request with the error as
the terminal outcome — no retry exists in the source. -/
theorem inference_error_classification (env : YearRoute.EpochEnv)
    (y cy cm : Nat) (err : Option String) (reason : String)
    (hb2 : env.agbSat.s2Size ≠ 0) (hb1 : env.agbSat.s1Size ≠ 0)
    (hs2 : env.socSat.s2Size ≠ 0) (hs1 : env.socSat.s1Size ≠ 0) :
    (env.agbServer = YearRoute.ServerOutcome.connRefused →
      YearRoute.getBiomassData env y cy cm = Except.error YearRoute.connRefusedMsg) ∧
    (env.agbServer = YearRoute.ServerOutcome.fail err →
      YearRoute.getBiomassData env y cy cm =
        Except.error (YearRoute.biomassWrap (YearRoute.jsOrStr err "Model prediction failed"))) ∧
    YearRoute.connRefusedMsg ≠
      YearRoute.biomassWrap (YearRoute.jsOrStr err "Model prediction failed") ∧
    "Model server is not running".data <:+: YearRoute.connRefusedMsg.data ∧
    (err = some reason → reason ≠ "" →
      reason.data <:+:
        (YearRoute.biomassWrap (YearRoute.jsOrStr err "Model prediction failed")).data) ∧
    (env.socServer = YearRoute.ServerOutcome.connRefused →
      YearRoute.getSOCData env y cy = Except.error YearRoute.connRefusedMsg) ∧
    (env.socServer = YearRoute.ServerOutcome.fail err →
      YearRoute.getSOCData env y cy =
        Except.error (YearRoute.socWrap (YearRoute.jsOrStr err "Model prediction failed"))) ∧
    YearRoute.connRefusedMsg ≠
      YearRoute.socWrap (YearRoute.jsOrStr err "Model prediction failed") := by
  refine ⟨?_, ?_, ?_, by decide, ?_, ?_, ?_, ?_⟩
  · intro h
    simp [YearRoute.getBiomassData, YearRoute.getSatelliteFeatures, hb2, hb1, h]
  · intro h
    simp [YearRoute.getBiomassData, YearRoute.getSatelliteFeatures, hb2, hb1, h]
  · intro hcontra
    exact string_ne_of_missing_seg
      (by simpa [YearRoute.biomassWrap] using hcontra) (by decide)
  · intro h hne
    subst h
    simp only [YearRoute.biomassWrap, YearRoute.jsOrStr, if_neg hne,
      String.data_append]
    exact seg_right _ (List.infix_refl _)
  · intro h
    simp [YearRoute.getSOCData, YearRoute.getSOCSatelliteFeatures, hs2, hs1, h]
  · intro h
    simp [YearRoute.getSOCData, YearRoute.getSOCSatelliteFeatures, hs2, hs1, h]
  · intro hcontra
    exact string_ne_of_missing_seg
      (by simpa [YearRoute.socWrap] using hcontra) (by decide)

/-- Witness for C9: an unreachable model server yields exactly the
connection-refused message, and that message differs from the
reachable-but-failing message for a concrete reason. -/
theorem inference_error_classification_witness :
    YearRoute.getBiomassData envConnRefused 2020 2025 10 =
      Except.error YearRoute.connRefusedMsg ∧
    YearRoute.connRefusedMsg ≠
      YearRoute.biomassWrap (YearRoute.jsOrStr (some "bad input") "Model prediction failed") :=
  ⟨(inference_error_classification envConnRefused 2020 2025 10 (some "bad input")
      "bad input" (by decide) (by decide) (by decide) (by decide)).1 rfl,
   (inference_error_classification envConnRefused 2020 2025 10 (some "bad input")
      "bad input" (by decide) (by decide) (by decide) (by decide)).2.2.1⟩

/-! ## Claim C10 -/

/-- Claim C10 (confirmed): on the (2-decimal) values a change analysis
carries, `calculateCredits` returns potentialCredits equal to the carbon
change when positive and 0 otherwise, prices it exactly at 15 × and 30 ×
for the estimated value range, clamps the annual sequestration at
max(0, annualChange), returns only non-negative credit quantities, and
grants "Potentially Eligible" exactly when the carbon change is strictly
positive. -/
theorem calculateCredits_spec (c a : ℚ) (hc : Is2dp c) (ha : Is2dp a) :
    ((CarbonRoute.calculateCredits c a).potentialCredits = if c > 0 then c else 0) ∧
    ((CarbonRoute.calculateCredits c a).estimatedMin =
      15 * (CarbonRoute.calculateCredits c a).potentialCredits) ∧
    ((CarbonRoute.calculateCredits c a).estimatedMax =
      30 * (CarbonRoute.calculateCredits c a).potentialCredits) ∧
    ((CarbonRoute.calculateCredits c a).annualSequestration = max 0 a) ∧
    0 ≤ (CarbonRoute.calculateCredits c a).potentialCredits ∧
    0 ≤ (CarbonRoute.calculateCredits c a).estimatedMin ∧
    0 ≤ (CarbonRoute.calculateCredits c a).estimatedMax ∧
    0 ≤ (CarbonRoute.calculateCredits c a).annualSequestration ∧
    ((CarbonRoute.calculateCredits c a).eligibility = "Potentially Eligible" ↔ 0 < c) := by
  have hpc : Is2dp (if c > 0 then c else 0) := by
    split_ifs
    · exact hc
    · exact ⟨0, by norm_num⟩
  have h15 : Is2dp ((if c > 0 then c else 0) * 15) := by
    obtain ⟨k, hk⟩ := hpc
    exact ⟨k * 15, by rw [hk]; push_cast; ring⟩
  have h30 : Is2dp ((if c > 0 then c else 0) * 30) := by
    obtain ⟨k, hk⟩ := hpc
    exact ⟨k * 30, by rw [hk]; push_cast; ring⟩
  have hmax : Is2dp (max 0 a) := is2dp_max ⟨0, by norm_num⟩ ha
  have hpc0 : (0 : ℚ) ≤ if c > 0 then c else 0 := by
    split_ifs with h
    · exact le_of_lt h
    · exact le_refl 0
  have e1 : (CarbonRoute.calculateCredits c a).potentialCredits =
      if c > 0 then c else 0 := by
    simp only [CarbonRoute.calculateCredits]
    exact round2_of_is2dp hpc
  have e2 : (CarbonRoute.calculateCredits c a).estimatedMin =
      (if c > 0 then c else 0) * 15 := by
    simp only [CarbonRoute.calculateCredits]
    exact round2_of_is2dp h15
  have e3 : (CarbonRoute.calculateCredits c a).estimatedMax =
      (if c > 0 then c else 0) * 30 := by
    simp only [CarbonRoute.calculateCredits]
    exact round2_of_is2dp h30
  have e4 : (CarbonRoute.calculateCredits c a).annualSequestration = max 0 a := by
    simp only [CarbonRoute.calculateCredits]
    exact round2_of_is2dp hmax
  refine ⟨e1, ?_, ?_, e4, ?_, ?_, ?_, ?_, ?_⟩
  · rw [e2, e1]; ring
  · rw [e3, e1]; ring
  · rw [e1]; exact hpc0
  · rw [e2]; positivity
  · rw [e3]; positivity
  · rw [e4]; exact le_max_left 0 a
  · simp only [CarbonRoute.calculateCredits]
    split_ifs with h
    · simp [h]
    · constructor
      · intro hx
        exact absurd hx (by decide)
      · intro hx
        exact absurd hx h

/-- Witness for C10: the values at carbonChange = 0.9, annualChange =
−0.5 (both two-decimal values, as `calculateCarbonChange` produces). -/
theorem calculateCredits_spec_witness :
    Is2dp (9/10 : ℚ) ∧
    (CarbonRoute.calculateCredits (9/10) (-(1/2))).annualSequestration =
      max 0 (-(1/2)) ∧
    ((CarbonRoute.calculateCredits (9/10) (-(1/2))).eligibility =
      "Potentially Eligible" ↔ (0 : ℚ) < 9/10) :=
  ⟨⟨90, by norm_num⟩,
   (calculateCredits_spec (9/10) (-(1/2)) ⟨90, by norm_num⟩ ⟨-50, by norm_num⟩).2.2.2.1,
   (calculateCredits_spec (9/10) (-(1/2)) ⟨90, by norm_num⟩ ⟨-50, by norm_num⟩).2.2.2.2.2.2.2.2⟩
